import Mathlib

/-!
Shallow embedding of the `xslxObject` repository (files
`xlsxObject/XlsxObject.py` and `xlsxObject/SheetData.py`) together with
theorems settling the behavioural claims about it.

Modelling conventions:
* A worksheet is its title plus a cell-access function
  `cell : Nat → Nat → Option Value` (1-based column, 1-based row); `none` is
  an empty/missing cell (`.value is None` in openpyxl).  Path validation and
  workbook loading are external collaborators, so the construction below
  receives the already-loaded `Workbook` and the file-name stem directly.
* The `while True` scanning loops of `_set_column_length` / `_set_row_length`
  are embedded with explicit fuel: `none` means the fuel ran out before an
  empty cell was met, which models divergence of the source loop.
* Python `range(a, b)` is `List.range' a (b - a)` (truncated subtraction on
  `Nat` matches `range`'s empty result when `b ≤ a`).
* Python values are untyped; the `Value` type carries the shapes the claims
  use (strings and integers), and a cell read yields `Option Value`.
-/

namespace XlsxSpec

/-- A scalar cell value as stored in a worksheet (untyped in Python; the
claims only need strings and integers). -/
inductive Value where
  | str (s : String)
  | int (n : Int)
deriving DecidableEq, Repr

/-- An openpyxl worksheet: a title and 1-based cell access,
`cell c r` being the value of the cell in column `c`, row `r`. -/
structure Worksheet where
  title : String
  cell : Nat → Nat → Option Value

/-- An openpyxl workbook: its ordered list of worksheets. -/
structure Workbook where
  worksheets : List Worksheet

/-- The `while True` loop shared by `_set_column_length` and
`_set_row_length`: starting at `idx`, if `line idx` is `None` return
`idx - 1`, otherwise advance to `idx + 1`.  `fuel` bounds the number of
iterations; `none` models non-termination within the given fuel. -/
def scan_loop (line : Nat → Option Value) : Nat → Nat → Option Nat
  | 0, _ => none
  | fuel + 1, idx => if line idx = none then some (idx - 1) else scan_loop line fuel (idx + 1)

/-- `XlsxObject._set_column_length`: scan row 1 from column 1 until an empty
cell is met. -/
def set_column_length (sheet : Worksheet) (fuel : Nat) : Option Nat :=
  scan_loop (fun c => sheet.cell c 1) fuel 1

/-- `XlsxObject._set_row_length`: scan column A from row 2 when the file has
headers (row 1 otherwise) until an empty cell is met. -/
def set_row_length (file_headers : Bool) (sheet : Worksheet) (fuel : Nat) : Option Nat :=
  scan_loop (fun r => sheet.cell 1 r) fuel (if file_headers then 2 else 1)

/-- `XlsxObject._set_sheet_header_list`: with headers on, the header of a
sheet with column count `n` is the row-1 cells of columns `1..n`
(`range(1, sheet_length + 1)` in the source); with headers off it is
`"Var{i}" for i in range(1, sheet_length)`. -/
def set_sheet_header_list (file_headers : Bool) (sheet_col_count : List Nat)
    (worksheets : List Worksheet) : List (List (Option Value)) :=
  if file_headers then
    (sheet_col_count.zip worksheets).map
      (fun p => (List.range' 1 p.1).map (fun i => p.2.cell i 1))
  else
    sheet_col_count.map
      (fun n => (List.range' 1 (n - 1)).map (fun i => some (Value.str ("Var" ++ toString i))))

/-- `XlsxObject._set_data`: rows run over `range(row_start, row_end)` with
`row_start = 2` when the file has headers (1 otherwise) and
`row_end = sheet_row_count[sheet_index]`; columns run over
`range(1, sheet_col_count[sheet_index] + 1)`.  Column-major result. -/
def set_data (file_headers : Bool) (row_count col_count : Nat) (sheet : Worksheet) :
    List (List (Option Value)) :=
  let row_start := if file_headers then 2 else 1
  (List.range' 1 col_count).map
    (fun col_i => (List.range' row_start (row_count - row_start)).map
      (fun row_i => sheet.cell col_i row_i))

/-- `XlsxObject._set_sheet_data`: `_set_data` per enumerated worksheet, the
row/column counts looked up by sheet index. -/
def set_sheet_data (file_headers : Bool) (row_counts col_counts : List Nat)
    (worksheets : List Worksheet) : List (List (List (Option Value))) :=
  worksheets.enum.map
    (fun p => set_data file_headers (row_counts.getD p.1 0) (col_counts.getD p.1 0) p.2)

/-- The attributes an `XlsxObject` instance carries after `__init__`
(the private `_workbook` handle aside). -/
structure XlsxObj where
  file_name : String
  file_headers : Bool
  sheet_names : List String
  sheet_col_count : List Nat
  sheet_row_count : List Nat
  sheet_headers : List (List (Option Value))
  sheet_data : List (List (List (Option Value)))
deriving DecidableEq, Repr

/-- `XlsxObject.__init__` after `validate_path` / `load_workbook` (external
collaborators): derive names, the per-sheet column and row counts (scanning
with the given fuel; `none` if any scan diverges), headers, and data, in the
source's order of assignment.  No `SheetData` value is constructed. -/
def xlsx_object_init (file_name : String) (wb : Workbook) (file_headers : Bool)
    (fuel : Nat) : Option XlsxObj := do
  let sheet_names := wb.worksheets.map (fun s => s.title)
  let sheet_col_count ← wb.worksheets.mapM (fun s => set_column_length s fuel)
  let sheet_row_count ← wb.worksheets.mapM (fun s => set_row_length file_headers s fuel)
  let sheet_headers := set_sheet_header_list file_headers sheet_col_count wb.worksheets
  let sheet_data := set_sheet_data file_headers sheet_row_count sheet_col_count wb.worksheets
  some { file_name := file_name, file_headers := file_headers, sheet_names := sheet_names,
         sheet_col_count := sheet_col_count, sheet_row_count := sheet_row_count,
         sheet_headers := sheet_headers, sheet_data := sheet_data }

/-- A Python key passed to `__getitem__`.  `bool` is a distinct constructor
because Python's `bool` is a subclass of `int`: `isinstance(True, int)` holds. -/
inductive PyKey where
  | int (i : Int)
  | bool (b : Bool)
  | str (s : String)
deriving DecidableEq, Repr

/-- Python's `isinstance(item, int)`: true for `int` and for `bool`
(a subclass of `int`), false otherwise. -/
def PyKey.isinstance_int : PyKey → Bool
  | .int _ => true
  | .bool _ => true
  | .str _ => false

/-- The integer a key denotes when used as a list index
(`True == 1`, `False == 0` in Python). -/
def PyKey.toIndex : PyKey → Int
  | .int i => i
  | .bool b => if b then 1 else 0
  | .str _ => 0

/-- The exception classes `__getitem__` can surface. -/
inductive PyError where
  | typeError (msg : String)
  | indexError
deriving DecidableEq, Repr

/-- Python list indexing `xs[i]` for an `int` index: negative indices count
from the end, out-of-range raises `IndexError`. -/
def pylist_get (xs : List α) (i : Int) : Except PyError α :=
  if h : 0 ≤ i ∧ i.toNat < xs.length then .ok (xs.get ⟨i.toNat, h.2⟩)
  else if h2 : i < 0 ∧ 0 ≤ i + xs.length ∧ (i + xs.length).toNat < xs.length then
    .ok (xs.get ⟨(i + xs.length).toNat, h2.2.2⟩)
  else .error .indexError

/-- `XlsxObject.__getitem__`: if `isinstance(item, int)` return
`self.sheet_data[item]`, otherwise raise a `TypeError`. -/
def getitem (obj : XlsxObj) (item : PyKey) : Except PyError (List (List (Option Value))) :=
  if item.isinstance_int then pylist_get obj.sheet_data item.toIndex
  else .error (.typeError ("Getting sheet data via __getitem__ requires an item yet was passed " ++
    "some other type"))

/-- `__getitem__` as a state transformer on the instance: the method body
only reads `self`, so the returned instance is the input one. -/
def getitem_state (obj : XlsxObj) (item : PyKey) :
    Except PyError (List (List (Option Value))) × XlsxObj :=
  (getitem obj item, obj)

/-- Modelled from the spec: `flip_list` comes from the external
`miscSupports` dependency, not from this repository.  Per the spec it
transposes a column-major list of lists into row-major form, and fails (an
`AssertionError`) when the columns are not all of one uniform length or the
input is empty (`rowData` is "empty if the transpose operation fails (e.g.,
ragged/empty column data)"). -/
def flip_list [Inhabited α] (data : List (List α)) : Option (List (List α)) :=
  match data with
  | [] => none
  | c :: cs =>
    if cs.all (fun col => col.length = c.length) then
      some ((List.range c.length).map (fun r => (c :: cs).map (fun col => col.getD r default)))
    else none

/-- The attributes a `SheetData` instance carries after `__init__`. -/
structure SheetDataObj (α : Type) where
  name : String
  header : List String
  column_data : List (List α)
  row_data : List (List α)
  col_count : Nat
  row_count : Nat
deriving Repr

/-- `SheetData.__init__`: store name, header and column data; `row_data` is
`flip_list(data)`, or `[]` when that raises `AssertionError`; the counts are
the lengths of `column_data` and `row_data`. -/
def sheetdata_init [Inhabited α] (sheet_name : String) (sheet_headers : List String)
    (data : List (List α)) : SheetDataObj α :=
  let row_data := (flip_list data).getD []
  { name := sheet_name, header := sheet_headers, column_data := data,
    row_data := row_data, col_count := data.length, row_count := row_data.length }

/-- Uniform column lengths: every two columns of the data have equal length
(the precondition of the transpose). -/
abbrev uniform_cols (data : List (List α)) : Prop :=
  ∀ c1 ∈ data, ∀ c2 ∈ data, c1.length = c2.length

/-- A workbook with a single sheet holding exactly one populated column
(cell A1 only): the `file_headers=False` boundary case of claim C1. -/
def one_col_wb : Workbook :=
  ⟨[⟨"Sheet1", fun c r => match c, r with
    | 1, 1 => some (Value.int 7)
    | _, _ => none⟩]⟩

/-- The single worksheet of the spec's round-trip scenario: named "Data",
headers `["A","B"]` in row 1, data rows `[1,2]` (row 2) and `[3,4]` (row 3). -/
def roundtrip_sheet : Worksheet :=
  ⟨"Data", fun c r => match c, r with
    | 1, 1 => some (Value.str "A")
    | 2, 1 => some (Value.str "B")
    | 1, 2 => some (Value.int 1)
    | 2, 2 => some (Value.int 2)
    | 1, 3 => some (Value.int 3)
    | 2, 3 => some (Value.int 4)
    | _, _ => none⟩

/-- The spec's round-trip workbook: just the sheet above. -/
def roundtrip_wb : Workbook := ⟨[roundtrip_sheet]⟩

/-- A worksheet whose populated region is the 2x2 block of columns 1-2,
rows 1-2 (row 1 serving as the header row when headers are on). -/
def demo_sheet : Worksheet :=
  ⟨"Demo", fun c r => if c ≤ 2 ∧ r ≤ 2 then some (Value.int 5) else none⟩

/-- A concrete two-sheet instance used to exercise `__getitem__`. -/
def demo_obj : XlsxObj :=
  { file_name := "demo", file_headers := true, sheet_names := ["s1", "s2"],
    sheet_col_count := [1, 1], sheet_row_count := [1, 1],
    sheet_headers := [[some (Value.str "h1")], [some (Value.str "h2")]],
    sheet_data := [[[some (Value.int 1)]], [[some (Value.int 2)]]] }

/-- C1 (code bug): loading the one-column workbook with `file_headers=False`
synthesizes the empty header list `[]` for that sheet — `range(1,
sheet_length)` yields `Var1..Var(N-1)` — where the claim (and the spec's
required inclusive range) demands `["Var1"]`. -/
theorem c1_header_synthesis_code_bug :
    (xlsx_object_init "one_col" one_col_wb false 10).map (fun o => o.sheet_headers) =
      some [[]] := by
  decide

/-- C2 (code bug): on the spec's round-trip workbook the extraction yields
`columnData = [[1],[2]]` — `range(row_start, row_end)` excludes its end, so
the last data row `[3,4]` is dropped — where the claim demands
`[[1,3],[2,4]]`. -/
theorem c2_data_extraction_code_bug :
    (xlsx_object_init "Data" roundtrip_wb true 10).map (fun o => o.sheet_data) =
      some [[[some (Value.int 1)], [some (Value.int 2)]]] := by
  decide

/-- C3 (code bug): constructing from the round-trip workbook produces an
object holding only the parallel raw lists `sheet_names`, `sheet_col_count`,
`sheet_row_count`, `sheet_headers` and `sheet_data` (column-major nested
lists); no per-sheet `Sheet` entity carrying name, header, columnData,
rowData and counts is constructed or exposed. -/
theorem c3_sheet_entity_code_bug :
    xlsx_object_init "Data" roundtrip_wb true 10 =
      some { file_name := "Data", file_headers := true, sheet_names := ["Data"],
             sheet_col_count := [2], sheet_row_count := [3],
             sheet_headers := [[some (Value.str "A"), some (Value.str "B")]],
             sheet_data := [[[some (Value.int 1)], [some (Value.int 2)]]] } := by
  decide

/-- If the scanned line is non-empty on `[start, k]` and empty at `k + 1`,
the scan loop (given enough fuel) returns `k`, the index just before the
first empty cell. -/
theorem scan_loop_eq_of_first_empty (line : Nat → Option Value) (k : Nat) :
    ∀ fuel start, start ≤ k + 1 → (∀ j, start ≤ j → j ≤ k → line j ≠ none) →
      line (k + 1) = none → k + 2 - start ≤ fuel → scan_loop line fuel start = some k := by
  intro fuel
  induction fuel with
  | zero => intro start h1 _ _ h4; omega
  | succ fuel ih =>
    intro start h1 h2 h3 h4
    simp only [scan_loop]
    by_cases he : line start = none
    · rw [if_pos he]
      have hse : start = k + 1 := by
        by_contra hne
        exact h2 start le_rfl (by omega) he
      rw [hse]
      simp
    · rw [if_neg he]
      have hsk : start ≤ k := by
        by_contra hgt
        have : start = k + 1 := by omega
        exact he (this ▸ h3)
      exact ih (start + 1) (by omega) (fun j hj1 hj2 => h2 j (by omega) hj2) h3 (by omega)

/-- If the scan loop terminates, the scanned line has an empty cell at or
after the start index. -/
theorem scan_loop_some_imp_empty (line : Nat → Option Value) :
    ∀ fuel start r, scan_loop line fuel start = some r →
      ∃ i, start ≤ i ∧ line i = none := by
  intro fuel
  induction fuel with
  | zero => intro start r h; simp [scan_loop] at h
  | succ fuel ih =>
    intro start r h
    simp only [scan_loop] at h
    by_cases he : line start = none
    · exact ⟨start, le_rfl, he⟩
    · rw [if_neg he] at h
      obtain ⟨i, hi, hine⟩ := ih (start + 1) r h
      exact ⟨i, by omega, hine⟩

/-- An empty cell at or after the start index makes the scan loop terminate
once the fuel covers the distance to it. -/
theorem scan_loop_terminates_of_empty (line : Nat → Option Value) :
    ∀ fuel start i, start ≤ i → line i = none → i + 2 - start ≤ fuel →
      ∃ r, scan_loop line fuel start = some r := by
  intro fuel
  induction fuel with
  | zero => intro start i h1 _ h3; omega
  | succ fuel ih =>
    intro start i h1 h2 h3
    simp only [scan_loop]
    by_cases he : line start = none
    · exact ⟨start - 1, by rw [if_pos he]⟩
    · rw [if_neg he]
      have hne : start ≠ i := fun h => he (h ▸ h2)
      exact ih (start + 1) i (by omega) h2 (by omega)

/-- Whatever the fuel, a terminating scan whose line is non-empty on
`[start, k]` and empty at `k + 1` can only return `k`. -/
theorem scan_loop_result_eq (line : Nat → Option Value) (k : Nat) :
    ∀ fuel start r, start ≤ k + 1 → (∀ j, start ≤ j → j ≤ k → line j ≠ none) →
      line (k + 1) = none → scan_loop line fuel start = some r → r = k := by
  intro fuel
  induction fuel with
  | zero => intro start r _ _ _ h; simp [scan_loop] at h
  | succ fuel ih =>
    intro start r hs hfull he h
    simp only [scan_loop] at h
    by_cases hst : line start = none
    · rw [if_pos hst] at h
      have hse : start = k + 1 := by
        by_contra hne
        exact hfull start le_rfl (by omega) hst
      injection h with h
      omega
    · rw [if_neg hst] at h
      have hsk : start ≤ k := by
        by_contra hgt
        have : start = k + 1 := by omega
        exact hst (this ▸ he)
      exact ih (start + 1) r (by omega) (fun j hj1 hj2 => hfull j (by omega) hj2) he h

/-- The transpose branch of `flip_list` on uniform-length columns. -/
theorem flip_list_uniform [Inhabited α] (c0 : List α) (cs : List (List α))
    (hall : ∀ col ∈ cs, col.length = c0.length) :
    flip_list (c0 :: cs) =
      some ((List.range c0.length).map
        (fun r => (c0 :: cs).map (fun col => col.getD r default))) := by
  have hb : cs.all (fun col => col.length = c0.length) = true := by
    simp only [List.all_eq_true, decide_eq_true_eq]
    exact hall
  simp [flip_list, hb]

/-- C4: when the columns of `data` are not of uniform length, `SheetData`
construction recovers from the failed transpose and stores the explicit
empty list as `row_data` instead of propagating the error. -/
theorem c4_ragged_rowdata_empty [Inhabited α] (name : String) (hdrs : List String)
    (data : List (List α)) (h : ¬ uniform_cols data) :
    (sheetdata_init name hdrs data).row_data = [] := by
  cases data with
  | nil =>
    exfalso
    apply h
    intro c1 h1
    exact absurd h1 (List.not_mem_nil c1)
  | cons c0 cs =>
    cases hall : cs.all (fun col => col.length = c0.length) with
    | true =>
      exfalso
      apply h
      have hall' : ∀ col ∈ cs, col.length = c0.length := by
        simpa [List.all_eq_true] using hall
      intro c1 h1 c2 h2
      have e1 : c1.length = c0.length := by
        rcases List.mem_cons.mp h1 with h1 | h1
        · rw [h1]
        · exact hall' _ h1
      have e2 : c2.length = c0.length := by
        rcases List.mem_cons.mp h2 with h2 | h2
        · rw [h2]
        · exact hall' _ h2
      rw [e1, e2]
    | false =>
      simp [sheetdata_init, flip_list, hall]

/-- C4 witness: the ragged data `[[1,2],[3]]` is not uniform and its
`SheetData` has `row_data = []`. -/
theorem c4_witness :
    ¬ uniform_cols ([[1, 2], [3]] : List (List Nat)) ∧
      (sheetdata_init "s" [] ([[1, 2], [3]] : List (List Nat))).row_data = [] :=
  ⟨by decide, c4_ragged_rowdata_empty "s" [] [[1, 2], [3]] (by decide)⟩

/-- C5: on uniform-length columns, `row_count` is the length of `row_data`
and `row_data` is the true transpose of `column_data`:
`row_data[r][c] = column_data[c][r]` for all valid `r`, `c`. -/
theorem c5_transpose_correct [Inhabited α] (name : String) (hdrs : List String)
    (data : List (List α)) (h : uniform_cols data) :
    (sheetdata_init name hdrs data).row_count =
        (sheetdata_init name hdrs data).row_data.length ∧
    ∀ r c, r < (sheetdata_init name hdrs data).row_count →
      c < (sheetdata_init name hdrs data).col_count →
      ((sheetdata_init name hdrs data).row_data[r]?.bind (fun row => row[c]?)) =
        ((sheetdata_init name hdrs data).column_data[c]?.bind (fun col => col[r]?)) := by
  refine ⟨rfl, ?_⟩
  intro r c hr hc
  cases data with
  | nil => simp [sheetdata_init, flip_list] at hr
  | cons c0 cs =>
    have hall : ∀ col ∈ cs, col.length = c0.length := fun col hcol =>
      h col (List.mem_cons_of_mem _ hcol) c0 (List.mem_cons_self _ _)
    have hflip := flip_list_uniform c0 cs hall
    simp only [sheetdata_init, hflip, Option.getD_some] at hr hc ⊢
    rw [List.length_map, List.length_range] at hr
    rw [List.getElem?_map, List.getElem?_range hr]
    simp only [Option.map_some', Option.some_bind]
    rw [List.getElem?_map]
    have hc' : c < (c0 :: cs).length := hc
    rw [List.getElem?_eq_getElem hc']
    have hmem : (c0 :: cs)[c] ∈ c0 :: cs := List.getElem_mem hc'
    have hcol_len : ((c0 :: cs)[c]).length = c0.length :=
      h _ hmem c0 (List.mem_cons_self _ _)
    have hr' : r < ((c0 :: cs)[c]).length := by omega
    simp only [Option.map_some', Option.some_bind]
    rw [List.getD_eq_getElem _ _ hr', List.getElem?_eq_getElem hr']

/-- C5 witness: for the uniform data `[[1,3],[2,4]]`, entry `(0, 1)` of the
row-major view equals entry `(1, 0)` of the column-major view. -/
theorem c5_witness :
    uniform_cols ([[1, 3], [2, 4]] : List (List Nat)) ∧
      ((sheetdata_init "Data" [] ([[1, 3], [2, 4]] : List (List Nat))).row_data[0]?.bind
          (fun row => row[1]?)) =
        ((sheetdata_init "Data" [] ([[1, 3], [2, 4]] : List (List Nat))).column_data[1]?.bind
          (fun col => col[0]?)) :=
  ⟨by decide,
   (c5_transpose_correct "Data" [] [[1, 3], [2, 4]] (by decide)).2 0 1 (by decide) (by decide)⟩

/-- C6: with a contiguously populated row 1 of width `C` and a contiguously
populated column A of height `R` (scanned from row 2 when headers are on,
row 1 otherwise), `_set_column_length` returns `C` and `_set_row_length`
returns `R` — the indices just before the first empty cell, i.e. the last
populated index of the scanned line. -/
theorem c6_extent_detection (sheet : Worksheet) (file_headers : Bool) (C R fuel : Nat)
    (hcols : ∀ c, 1 ≤ c → c ≤ C → sheet.cell c 1 ≠ none)
    (hcole : sheet.cell (C + 1) 1 = none)
    (hrstart : (if file_headers then 2 else 1) ≤ R + 1)
    (hrows : ∀ r, (if file_headers then 2 else 1) ≤ r → r ≤ R → sheet.cell 1 r ≠ none)
    (hrowe : sheet.cell 1 (R + 1) = none)
    (hfuelC : C + 2 ≤ fuel) (hfuelR : R + 2 ≤ fuel) :
    set_column_length sheet fuel = some C ∧
      set_row_length file_headers sheet fuel = some R := by
  constructor
  · exact scan_loop_eq_of_first_empty _ C fuel 1 (by omega) hcols hcole (by omega)
  · unfold set_row_length
    cases file_headers with
    | false =>
      simp only [Bool.false_eq_true, if_false] at hrstart hrows ⊢
      exact scan_loop_eq_of_first_empty _ R fuel 1 hrstart hrows hrowe (by omega)
    | true =>
      simp only [if_true] at hrstart hrows ⊢
      exact scan_loop_eq_of_first_empty _ R fuel 2 hrstart hrows hrowe (by omega)

/-- C6 witness: on the 2x2 demo sheet with headers on, the detected column
count and row count are both 2. -/
theorem c6_witness :
    demo_sheet.cell 3 1 = none ∧
      (set_column_length demo_sheet 10 = some 2 ∧
        set_row_length true demo_sheet 10 = some 2) :=
  ⟨rfl, c6_extent_detection demo_sheet true 2 2 10
    (by intro c h1 h2; interval_cases c <;> decide) rfl (by decide)
    (by intro r h1 h2
        have h1' : 2 ≤ r := by simpa using h1
        interval_cases r
        decide)
    rfl (by omega) (by omega)⟩

/-- C7: with headers enabled, the header of the sheet at index `k` (whose
detected column count is `n`) has length exactly `n` and its `i`-th entry is
the verbatim value of row 1, column `i + 1`; moreover the extracted column
data for that sheet also has exactly `n` columns. -/
theorem c7_header_extraction (sheet_col_count : List Nat) (worksheets : List Worksheet)
    (k n : Nat) (sheet : Worksheet)
    (hn : sheet_col_count[k]? = some n) (hs : worksheets[k]? = some sheet) :
    ∃ hdr, (set_sheet_header_list true sheet_col_count worksheets)[k]? = some hdr ∧
      hdr.length = n ∧
      (∀ j, j < n → hdr[j]? = some (sheet.cell (j + 1) 1)) ∧
      ∀ rc, (set_data true rc n sheet).length = n := by
  refine ⟨(List.range' 1 n).map (fun i => sheet.cell i 1), ?_, by simp, ?_, ?_⟩
  · simp only [set_sheet_header_list, if_true]
    rw [List.getElem?_map,
      show (sheet_col_count.zip worksheets)[k]? = some (n, sheet) from
        List.getElem?_zip_eq_some.mpr ⟨hn, hs⟩]
    rfl
  · intro j hj
    rw [List.getElem?_map, List.getElem?_range' 1 1 (by simpa using hj)]
    have harith : 1 + 1 * j = j + 1 := by omega
    rw [harith]
    rfl
  · intro rc
    simp [set_data]

/-- C7 witness: headers on, one sheet of column count 2 — its header list
exists with length 2 and the verbatim row-1 cells. -/
theorem c7_witness :
    ([2] : List Nat)[0]? = some 2 ∧
      ∃ hdr, (set_sheet_header_list true [2] [roundtrip_sheet])[0]? = some hdr ∧
        hdr.length = 2 ∧
        (∀ j, j < 2 → hdr[j]? = some (roundtrip_sheet.cell (j + 1) 1)) ∧
        ∀ rc, (set_data true rc 2 roundtrip_sheet).length = 2 :=
  ⟨rfl, c7_header_extraction [2] [roundtrip_sheet] 0 2 roundtrip_sheet rfl rfl⟩

/-- C8: `__getitem__` with an in-range integer key returns the sheet data at
that position, any string (non-integer) key raises a `TypeError`, and the
call never changes the instance. -/
theorem c8_getitem_spec (obj : XlsxObj) :
    (∀ i : Int, ∀ h : 0 ≤ i ∧ i.toNat < obj.sheet_data.length,
      getitem obj (PyKey.int i) = .ok (obj.sheet_data.get ⟨i.toNat, h.2⟩)) ∧
    (∀ s : String, ∃ msg, getitem obj (PyKey.str s) = .error (.typeError msg)) ∧
    (∀ item : PyKey, (getitem_state obj item).2 = obj) := by
  refine ⟨?_, fun s => ⟨_, rfl⟩, fun item => rfl⟩
  intro i h
  show pylist_get obj.sheet_data i = _
  rw [pylist_get, dif_pos h]

/-- C8 witness: on the two-sheet demo instance, `obj[0]` is the first
sheet's data, `obj["k"]` is a `TypeError`, and the instance is unchanged. -/
theorem c8_witness :
    getitem demo_obj (PyKey.int 0) = .ok [[some (Value.int 1)]] ∧
      (∃ msg, getitem demo_obj (PyKey.str "k") = .error (.typeError msg)) ∧
      (getitem_state demo_obj (PyKey.str "k")).2 = demo_obj :=
  ⟨(c8_getitem_spec demo_obj).1 0 ⟨by decide, by decide⟩,
   (c8_getitem_spec demo_obj).2.1 "k",
   (c8_getitem_spec demo_obj).2.2 (PyKey.str "k")⟩

/-- C9: the scanning loops of `_set_column_length` and `_set_row_length`
terminate exactly when the scanned line (row 1 from column 1, resp. column A
from row 2 with headers and row 1 without) eventually holds an empty cell,
and a terminating scan returns the index just before the first empty cell. -/
theorem c9_scan_termination (sheet : Worksheet) (file_headers : Bool) :
    ((∃ fuel r, set_column_length sheet fuel = some r) ↔
      ∃ c, 1 ≤ c ∧ sheet.cell c 1 = none) ∧
    ((∃ fuel r, set_row_length file_headers sheet fuel = some r) ↔
      ∃ i, (if file_headers then 2 else 1) ≤ i ∧ sheet.cell 1 i = none) ∧
    (∀ k fuel r, (∀ j, 1 ≤ j → j ≤ k → sheet.cell j 1 ≠ none) →
      sheet.cell (k + 1) 1 = none → set_column_length sheet fuel = some r → r = k) ∧
    (∀ k fuel r, (if file_headers then 2 else 1) ≤ k + 1 →
      (∀ j, (if file_headers then 2 else 1) ≤ j → j ≤ k → sheet.cell 1 j ≠ none) →
      sheet.cell 1 (k + 1) = none →
      set_row_length file_headers sheet fuel = some r → r = k) := by
  refine ⟨⟨?_, ?_⟩, ⟨?_, ?_⟩, ?_, ?_⟩
  · rintro ⟨fuel, r, h⟩
    obtain ⟨i, hi, hnone⟩ := scan_loop_some_imp_empty _ fuel 1 r h
    exact ⟨i, hi, hnone⟩
  · rintro ⟨c, hc, hnone⟩
    obtain ⟨r, hr⟩ := scan_loop_terminates_of_empty (fun c => sheet.cell c 1)
      (c + 2) 1 c hc hnone (by omega)
    exact ⟨c + 2, r, hr⟩
  · rintro ⟨fuel, r, h⟩
    obtain ⟨i, hi, hnone⟩ := scan_loop_some_imp_empty _ fuel _ r h
    exact ⟨i, hi, hnone⟩
  · rintro ⟨i, hi, hnone⟩
    obtain ⟨r, hr⟩ := scan_loop_terminates_of_empty (fun j => sheet.cell 1 j)
      (i + 2) _ i hi hnone (by omega)
    exact ⟨i + 2, r, hr⟩
  · intro k fuel r hfull hempty h
    exact scan_loop_result_eq _ k fuel 1 r (by omega) hfull hempty h
  · intro k fuel r hstart hfull hempty h
    exact scan_loop_result_eq _ k fuel _ r hstart hfull hempty h

/-- C9 witness: row 1 of the demo sheet has an empty cell (column 3), so the
column scan terminates. -/
theorem c9_witness :
    (1 ≤ 3 ∧ demo_sheet.cell 3 1 = none) ∧
      (∃ fuel r, set_column_length demo_sheet fuel = some r) :=
  ⟨⟨by omega, rfl⟩,
   (c9_scan_termination demo_sheet true).1.mpr ⟨3, by omega, rfl⟩⟩

/-- C10: a boolean key passes the `isinstance(item, int)` guard — Python's
`bool` is a subclass of `int` — so `obj[True]` is the sheet data at position
1 and `obj[False]` the sheet data at position 0 when those exist, with no
`TypeError`. -/
theorem c10_bool_key (obj : XlsxObj) (h0 : 0 < obj.sheet_data.length)
    (h1 : 1 < obj.sheet_data.length) :
    getitem obj (PyKey.bool true) = .ok (obj.sheet_data.get ⟨1, h1⟩) ∧
      getitem obj (PyKey.bool false) = .ok (obj.sheet_data.get ⟨0, h0⟩) := by
  constructor
  · show pylist_get obj.sheet_data 1 = _
    rw [pylist_get, dif_pos ⟨by omega, by simpa using h1⟩]
    rfl
  · show pylist_get obj.sheet_data 0 = _
    rw [pylist_get, dif_pos ⟨le_rfl, by simpa using h0⟩]
    rfl

/-- C10 witness: on the two-sheet demo instance, `obj[True]` is the second
sheet's data and `obj[False]` the first's. -/
theorem c10_witness :
    getitem demo_obj (PyKey.bool true) = .ok [[some (Value.int 2)]] ∧
      getitem demo_obj (PyKey.bool false) = .ok [[some (Value.int 1)]] :=
  ⟨(c10_bool_key demo_obj (by decide) (by decide)).1,
   (c10_bool_key demo_obj (by decide) (by decide)).2⟩

end XlsxSpec
